import Mathlib

/-!
Shallow embedding of the Adaptive Mirror behavioral signal pipeline
(`src/main.js`, class `AdaptiveMirror`, v3.0).  JS numbers are modelled by
`ℚ` (all quantities arising in the modelled fragments are finite; the one
claim about non-finite inputs uses the dedicated `JsNum` domain below),
counters by `ℕ`, and nullable timestamp fields by `Option ℚ` or by the
JS falsy convention (`0` = unset) where the source tests truthiness.
-/

/-- JS `Math.round` on a finite number: round half toward positive
infinity, i.e. `⌊x + 1/2⌋`. -/
def jsRound (x : ℚ) : ℤ := ⌊x + 1/2⌋

/-- The five behavioral archetypes (insertion order of the `scores`
object literal in `calculateResults`). -/
inductive Archetype
  | Impulsive
  | Analytical
  | Perfectionist
  | Observer
  | Restless
deriving DecidableEq, Repr

/-- The metrics record (`this.state.metrics`, main.js:438-454).
`lastActivityTime` is a plain number in the source (0 = "unset" via JS
falsiness); `firstActivityTime` is `null`-able. -/
structure Metrics where
  mouseDistance : ℚ
  velocitySum : ℚ
  velocityCount : ℕ
  maxVelocity : ℚ
  jitterCount : ℕ
  scrollCount : ℕ
  clickCount : ℕ
  keystrokes : ℕ
  backspaces : ℕ
  idleTime : ℚ
  lastActivityTime : ℚ
  firstActivityTime : Option ℚ
  directionChanges : ℕ
  maxScrollVelocity : ℚ
deriving DecidableEq, Repr

/-- All-zero metrics record (every counter 0, no activity timestamps). -/
def zeroMetrics : Metrics :=
  { mouseDistance := 0, velocitySum := 0, velocityCount := 0, maxVelocity := 0
    jitterCount := 0, scrollCount := 0, clickCount := 0, keystrokes := 0
    backspaces := 0, idleTime := 0, lastActivityTime := 0
    firstActivityTime := none, directionChanges := 0, maxScrollVelocity := 0 }

/-- `durationSec` of `calculateResults` (main.js:750-754):
`actualDuration = ((m.lastActivityTime || performance.now()) -
(m.firstActivityTime || this.state.startTime)) / 1000` and
`durationSec = Math.max(1, Math.min(30, actualDuration || 30))`.
The JS `||` fallbacks fire on the falsy values `0` (for the number
field) and `null` (for the nullable field); `actualDuration || 30`
likewise replaces an exact 0 by 30. -/
def durationSec (m : Metrics) (startTime now : ℚ) : ℚ :=
  let lastTs : ℚ := if m.lastActivityTime = 0 then now else m.lastActivityTime
  let firstTs : ℚ := m.firstActivityTime.getD startTime
  let actualDuration : ℚ := (lastTs - firstTs) / 1000
  max 1 (min 30 (if actualDuration = 0 then 30 else actualDuration))

/-- `avgVelocity` (main.js:756): guarded mean pointer speed. -/
def avgVelocity (m : Metrics) : ℚ :=
  if m.velocityCount > 0 then m.velocitySum / m.velocityCount else 0

/-- `clickRate` (main.js:757). -/
def clickRate (m : Metrics) (startTime now : ℚ) : ℚ :=
  m.clickCount / durationSec m startTime now

/-- `scrollRate` (main.js:758). -/
def scrollRate (m : Metrics) (startTime now : ℚ) : ℚ :=
  m.scrollCount / durationSec m startTime now

/-- `activityDensity` (main.js:759). -/
def activityDensity (m : Metrics) (startTime now : ℚ) : ℚ :=
  (m.clickCount + m.scrollCount + m.keystrokes : ℚ) / durationSec m startTime now

/-- `deletionRate` (main.js:760): 0 when there are no keystrokes. -/
def deletionRate (m : Metrics) : ℚ :=
  if m.keystrokes > 0 then (m.backspaces : ℚ) / m.keystrokes else 0

/-- `avgIdleGap` (main.js:761): 0 when there are no clicks. -/
def avgIdleGap (m : Metrics) : ℚ :=
  if m.clickCount > 0 then m.idleTime / m.clickCount else 0

/-- Impulsive rule contributions (main.js:772-774). -/
def impulsiveScore (m : Metrics) (startTime now : ℚ) : ℕ :=
  (if avgVelocity m > 12/10 ∨ clickRate m startTime now > 4/10 then 20 else 0) +
  (if m.maxVelocity > 3 then 15 else 0) +
  (if m.jitterCount > 40 then 15 else 0)

/-- Analytical rule contributions (main.js:776-778). -/
def analyticalScore (m : Metrics) : ℕ :=
  (if avgVelocity m < 1/2 ∧ avgIdleGap m > 2000 then 25 else 0) +
  (if m.idleTime > 10000 then 15 else 0) +
  (if m.keystrokes > 50 ∧ deletionRate m < 1/10 then 10 else 0)

/-- Perfectionist rule contributions (main.js:780-782). -/
def perfectionistScore (m : Metrics) : ℕ :=
  (if deletionRate m > 15/100 then 25 else 0) +
  (if m.backspaces > 3 then 15 else 0) +
  (if avgVelocity m < 8/10 ∧ m.jitterCount < 20 then 10 else 0)

/-- Observer rule contributions (main.js:784-785). -/
def observerScore (m : Metrics) : ℕ :=
  (if m.mouseDistance < 600 ∧ m.clickCount < 3 then 30 else 0) +
  (if m.keystrokes < 5 ∧ m.scrollCount < 5 then 20 else 0)

/-- Restless rule contributions (main.js:787-789). -/
def restlessScore (m : Metrics) (startTime now : ℚ) : ℕ :=
  (if activityDensity m startTime now > 8/10 then 20 else 0) +
  (if m.directionChanges > 30 then 15 else 0) +
  (if scrollRate m startTime now > 1/2 then 15 else 0)

/-- The `scores` object in the insertion order of its literal
(main.js:763-769); `Object.entries` enumerates in this order. -/
def scoreList (m : Metrics) (startTime now : ℚ) : List (Archetype × ℕ) :=
  [(.Impulsive, impulsiveScore m startTime now),
   (.Analytical, analyticalScore m),
   (.Perfectionist, perfectionistScore m),
   (.Observer, observerScore m),
   (.Restless, restlessScore m startTime now)]

/-- Insert an entry into a list already sorted by score descending,
after every entry with a score ≥ its own (preserving the relative
order of equal scores, as the ECMAScript stable `Array.sort` does). -/
def insertDesc (x : Archetype × ℕ) : List (Archetype × ℕ) → List (Archetype × ℕ)
  | [] => [x]
  | y :: ys => if x.2 > y.2 then x :: y :: ys else y :: insertDesc x ys

/-- Stable descending sort by score, modelling
`Object.entries(scores).sort((a, b) => b[1] - a[1])` (main.js:794). -/
def sortDesc (l : List (Archetype × ℕ)) : List (Archetype × ℕ) :=
  l.foldl (fun acc x => insertDesc x acc) []

/-- Dominant-archetype selection from the sorted entry list
(main.js:791-807): top entry if its score is positive, with the
simplified tie-break pairs; otherwise the zero-score fallback chain
(`dominant` was initialised to `'Observer'`). -/
def pickDominant (sorted : List (Archetype × ℕ)) (m : Metrics) : Archetype :=
  match sorted with
  | [] => .Observer
  | e0 :: rest =>
    if e0.2 > 0 then
      match rest with
      | [] => e0.1
      | e1 :: _ =>
        if e0.2 = e1.2 then
          if e1.1 = .Impulsive ∧ avgVelocity m > 1 then .Impulsive
          else if e1.1 = .Analytical ∧ avgIdleGap m > 2000 then .Analytical
          else e0.1
        else e0.1
    else
      if m.mouseDistance > 2000 then .Restless
      else if m.backspaces > 0 then .Perfectionist
      else if m.clickCount > 5 then .Impulsive
      else .Observer

/-- `dominant` as computed by `calculateResults` (main.js:791-807). -/
def dominantOf (m : Metrics) (startTime now : ℚ) : Archetype :=
  pickDominant (sortDesc (scoreList m startTime now)) m

/-- `normalizeScore` (main.js:833-835) on a finite input:
`Math.max(5, Math.min(95, Math.round(val)))`. -/
def normalizeScore (val : ℚ) : ℤ := max 5 (min 95 (jsRound val))

/-- The four sub-scores (`this.state.scores`, main.js:822-827). -/
structure ScoreSet where
  focus : ℤ
  hesitation : ℤ
  controlBias : ℤ
  energy : ℤ
deriving DecidableEq, Repr

/-- A classification result: personality label plus sub-scores. -/
structure Result where
  personality : Archetype
  scores : ScoreSet
deriving DecidableEq, Repr

/-- `calculateResults` (main.js:750-831) as a function of the final
metrics, the session `startTime` and the clock reading `now` taken at
classification time.  `safeNum` (main.js:812) is the identity on the
`ℚ` model since every value built here is finite; the final statement
`controlBias = Math.max(0, Math.min(100, controlBias))` (main.js:830)
is folded into the `controlBias` field. -/
def calculateResults (m : Metrics) (startTime now : ℚ) : Result :=
  let cr := clickRate m startTime now
  let sr := scrollRate m startTime now
  let ad := activityDensity m startTime now
  let focusScore := avgVelocity m * 20 + ad * 10
  let hesitationScore := deletionRate m * 50 + avgIdleGap m / 100
  let clickScrollSum := cr + sr
  let controlScore := if clickScrollSum > 0 then cr / clickScrollSum * 100 else 50
  let energyScore := min 100 (ad * 10)
  { personality := dominantOf m startTime now
    scores :=
      { focus := normalizeScore focusScore
        hesitation := normalizeScore hesitationScore
        controlBias := max 0 (min 100 (jsRound controlScore))
        energy := normalizeScore energyScore } }

/-! ## JS number domain with non-finite values

`normalizeScore` is claimed to behave on non-finite inputs too, so it is
additionally interpreted over the JS number domain extended with
`NaN` and the two infinities, with the ECMAScript semantics of
`Math.min`, `Math.max` and `Math.round` (each propagates `NaN`;
`Math.round` fixes the infinities). -/

/-- A JS number: finite (rational model), an infinity, or `NaN`. -/
inductive JsNum
  | fin (q : ℚ)
  | posInf
  | negInf
  | nan
deriving DecidableEq, Repr

/-- ECMAScript `Math.min` on two arguments: `NaN` if either argument is
`NaN`, otherwise the smaller value. -/
def jsMin : JsNum → JsNum → JsNum
  | .nan, _ => .nan
  | _, .nan => .nan
  | .negInf, _ => .negInf
  | _, .negInf => .negInf
  | .posInf, b => b
  | a, .posInf => a
  | .fin x, .fin y => .fin (min x y)

/-- ECMAScript `Math.max` on two arguments: `NaN` if either argument is
`NaN`, otherwise the larger value. -/
def jsMax : JsNum → JsNum → JsNum
  | .nan, _ => .nan
  | _, .nan => .nan
  | .posInf, _ => .posInf
  | _, .posInf => .posInf
  | .negInf, b => b
  | a, .negInf => a
  | .fin x, .fin y => .fin (max x y)

/-- ECMAScript `Math.round`: `NaN` and the infinities map to
themselves; finite values round half up. -/
def jsRoundNum : JsNum → JsNum
  | .nan => .nan
  | .posInf => .posInf
  | .negInf => .negInf
  | .fin q => .fin (jsRound q)

/-- `normalizeScore` (main.js:833-835) over the full JS number domain:
`Math.max(5, Math.min(95, Math.round(val)))`. -/
def normalizeScoreJs (val : JsNum) : JsNum :=
  jsMax (.fin 5) (jsMin (.fin 95) (jsRoundNum val))

/-! ## Event recorders -/

/-- The `this.lastMouse` sample `{x, y, time, vx, vy}` (main.js:65);
`time = 0` means "no previous sample" via JS falsiness. -/
structure LastMouse where
  x : ℚ
  y : ℚ
  time : ℚ
  vx : ℚ
  vy : ℚ
deriving DecidableEq, Repr

/-- The slice of `this` that the recorder handlers read and write:
session flags (`state.isObserving`, `state.hidden`, `isDestroyed`,
`isComposing`), the metrics record, and the last pointer sample. -/
structure AppState where
  isObserving : Bool
  hidden : Bool
  isDestroyed : Bool
  composing : Bool
  metrics : Metrics
  lastMouse : LastMouse
deriving DecidableEq, Repr

/-- `handleMouseMove` (main.js:545-599).  `Math.sqrt` is not rational,
so it is passed as an explicit function parameter; no theorem below
depends on its values.  The `isFinite(velocity)` guard on the
`maxVelocity` update is vacuous on the `ℚ` model (every quotient of
rationals by a nonzero `dt` is finite; `dt > 16` on this path). -/
def handleMouseMove (sq : ℚ → ℚ) (st : AppState) (ex ey now : ℚ) : AppState :=
  if !st.isObserving || st.hidden || st.isDestroyed then st
  else
    -- `if (!this.state.metrics.firstActivityTime)`: null and 0 are falsy
    let m0 := st.metrics
    let m0 := if m0.firstActivityTime.getD 0 = 0
              then { m0 with firstActivityTime := some now } else m0
    let step :=
      if st.lastMouse.time ≠ 0 then
        let dt := now - st.lastMouse.time
        if dt > 16 then
          let dx := ex - st.lastMouse.x
          let dy := ey - st.lastMouse.y
          let distance := sq (dx * dx + dy * dy)
          if distance > 0 then
            let vx := dx / dt
            let vy := dy / dt
            let velocity := sq (vx * vx + vy * vy)
            let m1 := { m0 with mouseDistance := m0.mouseDistance + distance
                                velocitySum := m0.velocitySum + velocity
                                velocityCount := m0.velocityCount + 1 }
            let m2 := if velocity > m1.maxVelocity
                      then { m1 with maxVelocity := velocity } else m1
            let m3 := if distance < 5 ∧ dt < 50
                      then { m2 with jitterCount := m2.jitterCount + 1 } else m2
            let m4 := if (st.lastMouse.vx ≠ 0 ∨ st.lastMouse.vy ≠ 0) ∧
                         vx * st.lastMouse.vx + vy * st.lastMouse.vy < 0 ∧
                         velocity > 3/10
                      then { m3 with directionChanges := m3.directionChanges + 1 }
                      else m3
            (m4, vx, vy)
          else (m0, st.lastMouse.vx, st.lastMouse.vy)
        else (m0, st.lastMouse.vx, st.lastMouse.vy)
      else (m0, st.lastMouse.vx, st.lastMouse.vy)
    { st with
        metrics := { step.1 with lastActivityTime := now }
        lastMouse := { x := ex, y := ey, time := now
                       vx := step.2.1, vy := step.2.2 } }

/-- `handleWheel` (main.js:620-626); `isFinite(|deltaY|)` always holds
on `ℚ`.  Note the source does not stamp `lastActivityTime` here. -/
def handleWheel (st : AppState) (deltaY : ℚ) : AppState :=
  if !st.isObserving || st.hidden || st.isDestroyed then st
  else if |deltaY| > st.metrics.maxScrollVelocity then
    { st with metrics := { st.metrics with maxScrollVelocity := |deltaY| } }
  else st

/-- `handleScroll` (main.js:628-632). -/
def handleScroll (st : AppState) (now : ℚ) : AppState :=
  if !st.isObserving || st.hidden || st.isDestroyed then st
  else { st with metrics :=
          { st.metrics with scrollCount := st.metrics.scrollCount + 1
                            lastActivityTime := now } }

/-- `handleClick` (main.js:634-645); `isSoundToggle` abstracts the
`e.target?.closest('#sound-toggle')` test (ripple and indicator DOM
effects are outside the model). -/
def handleClick (st : AppState) (isSoundToggle : Bool) (now : ℚ) : AppState :=
  if !st.isObserving || st.hidden || st.isDestroyed then st
  else if isSoundToggle then st
  else { st with metrics :=
          { st.metrics with clickCount := st.metrics.clickCount + 1
                            lastActivityTime := now } }

/-- A keyboard event as the handlers consume it. -/
structure KeyEvent where
  key : String
  ctrlKey : Bool
  metaKey : Bool
  altKey : Bool
  isComposing : Bool
deriving DecidableEq, Repr

/-- The `handleKeyDown` method defined first in the class body, at
main.js:690-714: the typing-metrics recorder.  Note its guard checks
`isObserving` and `isDestroyed` but not `hidden`. -/
def handleKeyDownRecorder (st : AppState) (e : KeyEvent) (now : ℚ) : AppState :=
  if !st.isObserving || st.isDestroyed then st
  else if st.composing ∨ e.key = "Dead" ∨ e.isComposing then st
  else
    let m := st.metrics
    let m := if e.key = "Backspace" then { m with backspaces := m.backspaces + 1 }
             else if e.key.length = 1 ∧ ¬e.ctrlKey ∧ ¬e.metaKey ∧ ¬e.altKey
             then { m with keystrokes := m.keystrokes + 1 }
             else m
    { st with metrics := { m with lastActivityTime := now } }

/-- The `handleKeyDown` method defined second in the class body, at
main.js:1280-1287: the Escape/space keyboard-shortcut handler.  On
`Escape` during observation it calls `reset()`, which stops the
observation (`isObserving = false`) and clears the result/theme/DOM
state but leaves `this.state.metrics` untouched (main.js:1229-1278
never writes a metrics field); the space branch only calls
`preventDefault`. -/
def handleKeyDownShortcut (st : AppState) (e : KeyEvent) : AppState :=
  if e.key = "Escape" ∧ st.isObserving then { st with isObserving := false }
  else st

/-- In an ECMAScript class body a later method definition with the same
name replaces the earlier one on the prototype, so the `handleKeyDown`
looked up by `bindEvents` (main.js:276 and 307) — and hence every
dispatched keydown event — is the shortcut handler at main.js:1280,
not the typing-metrics recorder at main.js:690. -/
def handleKeyDown (st : AppState) (e : KeyEvent) (now : ℚ) : AppState :=
  let _ := now  -- the effective method ignores the clock
  handleKeyDownShortcut st e

/-! ## Idle detector -/

/-- The state read and written by `checkIdle`: the session flags, the
activity clock anchor, the open idle period (`this.idleStart`, `null`
when closed) and the accumulated `idleTime`. -/
structure IdleState where
  isObserving : Bool
  hidden : Bool
  isDestroyed : Bool
  lastActivityTime : ℚ
  idleStart : Option ℚ
  idleTime : ℚ
deriving DecidableEq, Repr

/-- `checkIdle` (main.js:528-543), run by a 100ms interval: close an
open idle period when activity resumed (`timeSinceActivity < 100`) and
commit it only if it lasted more than 500ms; open a period when no
activity for more than 400ms. -/
def checkIdle (st : IdleState) (now : ℚ) : IdleState :=
  if !st.isObserving || st.hidden || st.isDestroyed then st
  else
    let timeSinceActivity := now - st.lastActivityTime
    match st.idleStart with
    | some idleStart =>
      if timeSinceActivity < 100 then
        let idleDuration := now - idleStart
        { st with
            idleTime := if idleDuration > 500 then st.idleTime + idleDuration
                        else st.idleTime
            idleStart := none }
      else st
    | none =>
      if timeSinceActivity > 400 then { st with idleStart := some now } else st

/-- A timeline item for the idle model: either an input event that
stamps the activity clock (every recorder writes
`lastActivityTime = now`), or one firing of the 100ms `checkIdle`
interval. -/
inductive IdleEvent
  | activity (t : ℚ)
  | poll (t : ℚ)
deriving DecidableEq, Repr

/-- One timeline step. -/
def stepIdle (st : IdleState) : IdleEvent → IdleState
  | .activity t => { st with lastActivityTime := t }
  | .poll t => checkIdle st t

/-- Run a timeline of activity stamps and idle polls. -/
def runIdle (st : IdleState) (evs : List IdleEvent) : IdleState :=
  evs.foldl stepIdle st

/-! ## Session clock: visibility pause/resume and the countdown -/

/-- The state touched by `handleVisibilityChange`: the observing flag,
the hidden flag, `state.hiddenTime` (the pause anchor) and
`state.startTime`. -/
structure VisState where
  isObserving : Bool
  hidden : Bool
  hiddenTime : ℚ
  startTime : ℚ
deriving DecidableEq, Repr

/-- `handleVisibilityChange` (main.js:382-408) as a function of the
`document.hidden` flag and the clock.  The pause branch records the
pause anchor and sets `hidden`; the resume branch shifts `startTime`
forward by `now - hiddenTime` and clears `hidden` (the source briefly
sets `hidden = true` on main.js:393 before overwriting it on
main.js:399; only the final value is observable here).  Interval and
render-loop bookkeeping is outside the model.  Note the resume branch
neither checks that the session was actually hidden nor clears
`hiddenTime`. -/
def handleVisibilityChange (st : VisState) (docHidden : Bool) (now : ℚ) : VisState :=
  if !st.isObserving then st
  else if docHidden then
    { st with hidden := true, hiddenTime := now }
  else
    let hiddenDuration := now - st.hiddenTime
    { st with startTime := st.startTime + hiddenDuration, hidden := false }

/-- The `remaining` value computed by each countdown tick
(main.js:472): `Math.max(0, Math.ceil((duration - elapsed) / 1000))`
with `elapsed = now - startTime`. -/
def remainingOf (st : VisState) (duration now : ℚ) : ℤ :=
  max 0 ⌈(duration - (now - st.startTime)) / 1000⌉

/-! ## Session controller: completion with classification fallback -/

/-- The controller state relevant to completion: the observing flag and
the recorded result fields (`this.state.personality`,
`this.state.scores`, both `null`/empty before completion). -/
structure CtrlState where
  isObserving : Bool
  personality : Option Archetype
  scores : Option ScoreSet
deriving DecidableEq, Repr

/-- The fixed fallback written by the `catch` block of
`completeObservation` (main.js:736-737): personality `'Observer'` and
all four sub-scores 50. -/
def fallbackScores : ScoreSet :=
  { focus := 50, hesitation := 50, controlBias := 50, energy := 50 }

/-- `completeObservation` (main.js:728-748): first `stopObservation()`
(clearing `isObserving`), then `try { calculateResults() } catch` — the
classification outcome is passed in as an `Except` so that an
arbitrary thrown exception can be represented.  The delayed
display/persist callback is outside the model. -/
def completeObservation (outcome : Except String Result) (st : CtrlState) : CtrlState :=
  let stopped := { st with isObserving := false }
  match outcome with
  | .ok r => { stopped with personality := some r.personality, scores := some r.scores }
  | .error _ => { stopped with personality := some .Observer, scores := some fallbackScores }

/-! ## Concrete inputs used by the theorems -/

/-- Scenario C metrics: every field 0 except `mouseDistance = 2500`. -/
def scenarioCMetrics : Metrics := { zeroMetrics with mouseDistance := 2500 }

/-- The duration formula claimed for the both-timestamps case, written
from the spec's words: `clamp((lastActivityTime − firstActivityTime)/1000, 1, 30)`. -/
def specActualDurationSec (last first : ℚ) : ℚ :=
  max 1 (min 30 ((last - first) / 1000))

/-- A default previous-pointer sample (constructor state, main.js:65). -/
def lastMouse0 : LastMouse := { x := 0, y := 0, time := 0, vx := 0, vy := 0 }

/-- An app state mid-observation, tab visible, fresh metrics. -/
def observingAppState : AppState :=
  { isObserving := true, hidden := false, isDestroyed := false
    composing := false, metrics := zeroMetrics, lastMouse := lastMouse0 }

/-- An app state outside a session (not Observing). -/
def idleAppState : AppState :=
  { isObserving := false, hidden := false, isDestroyed := false
    composing := false, metrics := zeroMetrics, lastMouse := lastMouse0 }

/-- A `Backspace` keydown, no modifiers, not composing. -/
def backspaceEvent : KeyEvent :=
  { key := "Backspace", ctrlKey := false, metaKey := false, altKey := false
    isComposing := false }

/-- A printable-character keydown (`"a"`), no modifiers, not composing. -/
def letterEvent : KeyEvent :=
  { key := "a", ctrlKey := false, metaKey := false, altKey := false
    isComposing := false }

/-- Idle-tracker state at the start of a trace: observing, visible,
last activity stamped at time 0, no open idle period. -/
def initIdleState : IdleState :=
  { isObserving := true, hidden := false, isDestroyed := false
    lastActivityTime := 0, idleStart := none, idleTime := 0 }

/-- Activity at 0, a 450ms inactivity gap, activity resuming at 450 and
continuing, with the 100ms poll grid. -/
def trace450 : List IdleEvent :=
  [.poll 100, .poll 200, .poll 300, .poll 400, .activity 450,
   .poll 500, .activity 550, .poll 600, .activity 650, .poll 700,
   .activity 750, .poll 800, .activity 850, .poll 900, .activity 950, .poll 1000]

/-- Activity at 0, a 600ms inactivity gap, activity resuming at 600 and
continuing, with the 100ms poll grid. -/
def trace600 : List IdleEvent :=
  [.poll 100, .poll 200, .poll 300, .poll 400, .poll 500, .activity 600,
   .activity 650, .poll 700, .activity 750, .poll 800, .activity 850,
   .poll 900, .activity 950, .poll 1000]

/-- Activity at 0, an 1100ms inactivity gap, activity resuming at 1100
and continuing, with the 100ms poll grid. -/
def trace1100 : List IdleEvent :=
  [.poll 100, .poll 200, .poll 300, .poll 400, .poll 500, .poll 600,
   .poll 700, .poll 800, .poll 900, .poll 1000, .activity 1100,
   .activity 1150, .poll 1200]

/-- A session paused by visibility loss at time 1000 (pause anchor
`hiddenTime = 1000`), with `startTime = 0`. -/
def pausedVisState : VisState :=
  { isObserving := true, hidden := true, hiddenTime := 1000, startTime := 0 }

/-- An observing, visible session clock state. -/
def observingVisState : VisState :=
  { isObserving := true, hidden := false, hiddenTime := 0, startTime := 0 }

/-! ## Helper lemmas for the Scenario C metrics -/

lemma scenarioC_clickRate (s n : ℚ) : clickRate scenarioCMetrics s n = 0 := by
  simp [clickRate, scenarioCMetrics, zeroMetrics]

lemma scenarioC_scrollRate (s n : ℚ) : scrollRate scenarioCMetrics s n = 0 := by
  simp [scrollRate, scenarioCMetrics, zeroMetrics]

lemma scenarioC_activityDensity (s n : ℚ) : activityDensity scenarioCMetrics s n = 0 := by
  simp [activityDensity, scenarioCMetrics, zeroMetrics]

lemma scenarioC_impulsiveScore (s n : ℚ) : impulsiveScore scenarioCMetrics s n = 0 := by
  rw [impulsiveScore, scenarioC_clickRate]
  norm_num [avgVelocity, scenarioCMetrics, zeroMetrics]

lemma scenarioC_analyticalScore : analyticalScore scenarioCMetrics = 0 := by
  norm_num [analyticalScore, avgVelocity, avgIdleGap, deletionRate, scenarioCMetrics, zeroMetrics]

lemma scenarioC_perfectionistScore : perfectionistScore scenarioCMetrics = 10 := by
  norm_num [perfectionistScore, avgVelocity, deletionRate, scenarioCMetrics, zeroMetrics]

lemma scenarioC_observerScore : observerScore scenarioCMetrics = 20 := by
  norm_num [observerScore, scenarioCMetrics, zeroMetrics]

lemma scenarioC_restlessScore (s n : ℚ) : restlessScore scenarioCMetrics s n = 0 := by
  rw [restlessScore, scenarioC_scrollRate, scenarioC_activityDensity]
  norm_num [scenarioCMetrics, zeroMetrics]

/-- On the Scenario C metrics the stable descending sort of the score
entries puts Observer (20) first and Perfectionist (10) second; the top
score is not zero. -/
lemma scenarioC_sorted (s n : ℚ) :
    sortDesc (scoreList scenarioCMetrics s n) =
      [(.Observer, 20), (.Perfectionist, 10), (.Impulsive, 0), (.Analytical, 0), (.Restless, 0)] := by
  rw [scoreList, scenarioC_impulsiveScore, scenarioC_analyticalScore,
    scenarioC_perfectionistScore, scenarioC_observerScore, scenarioC_restlessScore]
  decide

/-- Classification of the Scenario C metrics yields Observer, for every
session `startTime` and classification-time clock reading. -/
lemma scenarioC_personality (s n : ℚ) :
    (calculateResults scenarioCMetrics s n).personality = Archetype.Observer := by
  have h : (calculateResults scenarioCMetrics s n).personality
      = pickDominant (sortDesc (scoreList scenarioCMetrics s n)) scenarioCMetrics := rfl
  rw [h, scenarioC_sorted]
  decide

/-! ## Claim theorems -/

/-- Claim C1, amended.  For final metrics that are all exactly 0 except
`mouseDistance = 2500`, the second Observer rule
(`keystrokes < 5 ∧ scrollCount < 5`, +20) and the third Perfectionist
rule (`avgVelocity < 0.8 ∧ jitterCount < 20`, +10) still fire, so the
top score is 20, the zero-score fallback branch is not reached, and the
dominant personality is Observer — for every session start time and
classification clock reading. -/
theorem claim_C1_amended (s n : ℚ) :
    (calculateResults scenarioCMetrics s n).personality = Archetype.Observer :=
  scenarioC_personality s n

/-- Claim C1, counterexample to the claim as stated.  On the Scenario C
metrics the classifier does not reach the zero-score fallback (the
sorted score list starts with Observer at 20) and the dominant
personality is not Restless. -/
theorem claim_C1_counterexample :
    (calculateResults scenarioCMetrics 0 30000).personality ≠ Archetype.Restless ∧
    sortDesc (scoreList scenarioCMetrics 0 30000) =
      [(.Observer, 20), (.Perfectionist, 10), (.Impulsive, 0), (.Analytical, 0), (.Restless, 0)] := by
  constructor
  · rw [scenarioC_personality]; decide
  · exact scenarioC_sorted 0 30000

/-- Claim C2 (code bug).  The keydown listeners dispatch the class
method `handleKeyDown`, which — because the shortcut handler at
main.js:1280 shadows the recorder at main.js:690 — leaves the state
(in particular `backspaces`, `keystrokes` and `lastActivityTime`)
completely unchanged on a `Backspace` or printable keydown delivered
while Observing and not composing; the shadowed recorder body would
have incremented the respective counter and stamped activity exactly
as the claim states. -/
theorem claim_C2_keydown_dead :
    handleKeyDown observingAppState backspaceEvent 1000 = observingAppState ∧
    handleKeyDown observingAppState letterEvent 1000 = observingAppState ∧
    (handleKeyDownRecorder observingAppState backspaceEvent 1000).metrics.backspaces = 1 ∧
    (handleKeyDownRecorder observingAppState letterEvent 1000).metrics.keystrokes = 1 ∧
    (handleKeyDownRecorder observingAppState backspaceEvent 1000).metrics.lastActivityTime = 1000 := by
  exact ⟨by decide, by decide, by rfl, by rfl, by rfl⟩

/-- Claim C3, counterexample to the claim as stated.  Under the 100ms
poll cadence, a 600ms inactivity gap followed by resumed activity adds
0 to `idleTime`, not approximately 600: the idle period only opens at
the first poll more than 400ms after the last activity, so by the
closing poll it has lasted about 200ms, below the 500ms commit
threshold. -/
theorem claim_C3_counterexample :
    (runIdle initIdleState trace600).idleTime = 0 := by
  norm_num [runIdle, stepIdle, checkIdle, trace600, initIdleState]

/-- Claim C3, amended.  A 450ms inactivity gap followed by resumed
activity adds 0 to `idleTime`, and a 600ms gap also adds 0 (its idle
period, measured from the opening poll, stays below the 500ms commit
threshold); only substantially longer gaps commit — an 1100ms gap adds
700ms once closed. -/
theorem claim_C3_amended :
    (runIdle initIdleState trace450).idleTime = 0 ∧
    (runIdle initIdleState trace600).idleTime = 0 ∧
    (runIdle initIdleState trace1100).idleTime = 700 := by
  refine ⟨by norm_num [runIdle, stepIdle, checkIdle, trace450, initIdleState],
    by norm_num [runIdle, stepIdle, checkIdle, trace600, initIdleState],
    by norm_num [runIdle, stepIdle, checkIdle, trace1100, initIdleState]⟩

/-- Claim C4, counterexample to the claim as stated.  For a session
whose first and last activity timestamps are both set and equal (first
and only event at t = 5000), the claimed formula
`clamp((last − first)/1000, 1, 30)` yields 1, but the code's
`actualDuration || 30` treats the zero difference as missing and yields
30. -/
theorem claim_C4_counterexample :
    durationSec { zeroMetrics with lastActivityTime := 5000, firstActivityTime := some 5000 } 0 20000 = 30 ∧
    specActualDurationSec 5000 5000 = 1 ∧ (30 : ℚ) ≠ 1 := by
  refine ⟨by norm_num [durationSec, zeroMetrics], by norm_num [specActualDurationSec], by norm_num⟩

/-- Claim C4, amended.  When no activity timestamps exist
(`lastActivityTime = 0`, `firstActivityTime = null`), `actualDurationSec`
falls back to `clamp((now − startTime)/1000, 1, 30)`, which equals 30
whenever classification runs at or after the 30s window expiry; when
both timestamps are set, `actualDurationSec =
clamp((last − first)/1000, 1, 30)` except that a zero difference is
replaced by 30 (the `|| 30` fallback treats 0 as missing). -/
theorem claim_C4_amended (m : Metrics) (s n : ℚ) :
    (m.lastActivityTime = 0 → m.firstActivityTime = none → 30000 ≤ n - s →
      durationSec m s n = 30) ∧
    (∀ f, m.firstActivityTime = some f → m.lastActivityTime ≠ 0 →
      durationSec m s n =
        if m.lastActivityTime = f then 30
        else specActualDurationSec m.lastActivityTime f) := by
  constructor
  · intro h0 hf h30
    have hx : (30 : ℚ) ≤ (n - s) / 1000 := by
      rw [le_div_iff₀ (by norm_num)]
      linarith
    simp only [durationSec, h0, hf, if_pos, Option.getD_none]
    rw [if_neg (by positivity), min_eq_left hx]
    · norm_num
  · intro f hf hne
    simp only [durationSec, hf, if_neg hne, Option.getD_some]
    by_cases heq : m.lastActivityTime = f
    · rw [heq, if_pos rfl, sub_self, zero_div, if_pos rfl]
      norm_num
    · rw [if_neg heq,
        if_neg (div_ne_zero (sub_ne_zero.mpr heq) (by norm_num : (1000:ℚ) ≠ 0)),
        specActualDurationSec]

/-- Claim C4, witness: a session with no activity timestamps classified
at `now − startTime = 40000` gets `durationSec = 30`, and one with
timestamps 1000 and 7000 gets the clamped 6-second span. -/
theorem claim_C4_witness :
    durationSec zeroMetrics 0 40000 = 30 ∧
    durationSec { zeroMetrics with lastActivityTime := 7000, firstActivityTime := some 1000 } 0 40000
      = if (7000 : ℚ) = 1000 then 30 else specActualDurationSec 7000 1000 :=
  ⟨(claim_C4_amended zeroMetrics 0 40000).1 rfl rfl (by norm_num),
   (claim_C4_amended { zeroMetrics with lastActivityTime := 7000, firstActivityTime := some 1000 } 0 40000).2
     1000 rfl (by norm_num)⟩

/-- Claim C5 (code bug).  The resume direction of the visibility
handler is not idempotent: for a session paused at `hiddenTime = 1000`
with `startTime = 0`, one resume call at t = 2000 shifts `startTime` to
1000, but an immediately repeated resume call at the same instant
shifts it again, to 2000 — a double time-shift, because `hiddenTime`
is never cleared and the resume branch does not check the hidden flag.
(The pause direction, by contrast, is idempotent at a fixed instant,
as the third conjunct shows.) -/
theorem claim_C5_resume_not_idempotent :
    (handleVisibilityChange pausedVisState false 2000).startTime = 1000 ∧
    (handleVisibilityChange (handleVisibilityChange pausedVisState false 2000) false 2000).startTime = 2000 ∧
    handleVisibilityChange (handleVisibilityChange observingVisState true 500) true 500
      = handleVisibilityChange observingVisState true 500 := by
  refine ⟨by norm_num [handleVisibilityChange, pausedVisState],
    by norm_num [handleVisibilityChange, pausedVisState],
    by norm_num [handleVisibilityChange, observingVisState]⟩

/-- Claim C6.  Every recorder operation — pointer sample, scroll,
wheel, click, keydown — invoked while the session is not Observing or
while the tab is hidden leaves every field of the metrics record
unchanged.  (For keydown this holds because the dispatched method, the
shortcut handler that shadows the typing recorder, never writes a
metrics field at all; the shadowed recorder body itself lacks a
`hidden` guard.) -/
theorem claim_C6 (sq : ℚ → ℚ) (st : AppState) (ex ey dY now : ℚ) (tgl : Bool) (e : KeyEvent)
    (h : st.isObserving = false ∨ st.hidden = true) :
    (handleMouseMove sq st ex ey now).metrics = st.metrics ∧
    (handleScroll st now).metrics = st.metrics ∧
    (handleWheel st dY).metrics = st.metrics ∧
    (handleClick st tgl now).metrics = st.metrics ∧
    (handleKeyDown st e now).metrics = st.metrics := by
  have hg : (!st.isObserving || st.hidden || st.isDestroyed) = true := by
    rcases h with h | h <;> simp [h]
  refine ⟨?_, ?_, ?_, ?_, ?_⟩
  · rw [handleMouseMove, if_pos hg]
  · rw [handleScroll, if_pos hg]
  · rw [handleWheel, if_pos hg]
  · rw [handleClick, if_pos hg]
  · rw [handleKeyDown, handleKeyDownShortcut]
    split <;> rfl

/-- Claim C6, witness: all five recorders are metrics no-ops on a
concrete non-Observing state. -/
theorem claim_C6_witness :
    (handleMouseMove id idleAppState 10 20 1000).metrics = idleAppState.metrics ∧
    (handleScroll idleAppState 1000).metrics = idleAppState.metrics ∧
    (handleWheel idleAppState 5).metrics = idleAppState.metrics ∧
    (handleClick idleAppState false 1000).metrics = idleAppState.metrics ∧
    (handleKeyDown idleAppState letterEvent 1000).metrics = idleAppState.metrics :=
  claim_C6 id idleAppState 10 20 5 1000 false letterEvent (Or.inl rfl)

/-- Claim C7.  If classification throws (any exception value), the
completion routine still clears the observing flag (the Completed
transition) and substitutes the fixed fallback result: personality
Observer with all four sub-scores 50. -/
theorem claim_C7 (e : String) (st : CtrlState) :
    completeObservation (Except.error e) st =
      { isObserving := false
        personality := some Archetype.Observer
        scores := some fallbackScores } := rfl

/-- Claim C8.  For every metrics record (and any session start time and
classification clock reading), the `controlBias` sub-score is an
integer in [0, 100], and it is exactly 50 whenever `clickCount = 0`
and `scrollCount = 0`. -/
theorem claim_C8 (m : Metrics) (s n : ℚ) :
    0 ≤ (calculateResults m s n).scores.controlBias ∧
    (calculateResults m s n).scores.controlBias ≤ 100 ∧
    (m.clickCount = 0 → m.scrollCount = 0 →
      (calculateResults m s n).scores.controlBias = 50) := by
  have hcb : (calculateResults m s n).scores.controlBias
      = max 0 (min 100 (jsRound
          (if clickRate m s n + scrollRate m s n > 0
           then clickRate m s n / (clickRate m s n + scrollRate m s n) * 100
           else 50))) := rfl
  refine ⟨?_, ?_, ?_⟩
  · rw [hcb]; exact le_max_left 0 _
  · rw [hcb]; exact max_le (by norm_num) (le_trans (min_le_left _ _) le_rfl)
  · intro h1 h2
    have hc : clickRate m s n = 0 := by simp [clickRate, h1]
    have hs : scrollRate m s n = 0 := by simp [scrollRate, h2]
    rw [hcb, hc, hs]
    norm_num [jsRound]

/-- Claim C8, witness: the all-zero metrics yield `controlBias = 50`. -/
theorem claim_C8_witness :
    (calculateResults zeroMetrics 0 30000).scores.controlBias = 50 :=
  (claim_C8 zeroMetrics 0 30000).2.2 rfl rfl

/-- Claim C9, counterexample to the claim as stated.  On input `NaN`
the normalize function returns `NaN` (ECMAScript `Math.round`,
`Math.min` and `Math.max` all propagate `NaN`), which is not an
integer in [5, 95]. -/
theorem claim_C9_counterexample :
    normalizeScoreJs JsNum.nan = JsNum.nan ∧
    ¬ ∃ z : ℤ, normalizeScoreJs JsNum.nan = JsNum.fin z ∧ 5 ≤ z ∧ z ≤ 95 := by
  refine ⟨rfl, ?_⟩
  rintro ⟨z, hz, -, -⟩
  exact JsNum.noConfusion hz

/-- Claim C9, amended.  For every finite input the normalize function
returns an integer in [5, 95], `+Infinity` maps to 95, and `-Infinity`
maps to 5; only `NaN` escapes the range (and the classifier's `safeNum`
guard replaces non-finite intermediates with 0 before normalization). -/
theorem claim_C9_amended :
    (∀ q : ℚ, ∃ z : ℤ, normalizeScoreJs (JsNum.fin q) = JsNum.fin z ∧ 5 ≤ z ∧ z ≤ 95) ∧
    normalizeScoreJs JsNum.posInf = JsNum.fin 95 ∧
    normalizeScoreJs JsNum.negInf = JsNum.fin 5 := by
  refine ⟨fun q => ⟨max 5 (min 95 (jsRound q)), ?_, le_max_left _ _,
    max_le (by norm_num) (min_le_left _ _)⟩, by decide, by decide⟩
  show JsNum.fin (max 5 (min 95 ((jsRound q : ℤ) : ℚ)))
      = JsNum.fin ((max 5 (min 95 (jsRound q)) : ℤ) : ℚ)
  congr 1
  push_cast
  rfl

/-- Claim C10.  Pausing an Observing session at time `tp` and resuming
it after hidden-duration `h` shifts `startTime` forward by exactly `h`,
and the `remaining` value computed just before the pause equals the
`remaining` value computed immediately after the resume. -/
theorem claim_C10 (st : VisState) (tp h : ℚ) (hobs : st.isObserving = true) (_hpos : 0 ≤ h) :
    (handleVisibilityChange (handleVisibilityChange st true tp) false (tp + h)).startTime
      = st.startTime + h ∧
    remainingOf (handleVisibilityChange (handleVisibilityChange st true tp) false (tp + h))
        30000 (tp + h)
      = remainingOf st 30000 tp := by
  have h1 : handleVisibilityChange st true tp = { st with hidden := true, hiddenTime := tp } := by
    rw [handleVisibilityChange, hobs]
    rfl
  have harg : st.startTime + (tp + h - tp) = st.startTime + h := by ring
  have h2 : (handleVisibilityChange (handleVisibilityChange st true tp) false (tp + h))
      = { st with hidden := false, hiddenTime := tp, startTime := st.startTime + h } := by
    rw [h1, handleVisibilityChange]
    simp [hobs, harg]
  rw [h2]
  constructor
  · rfl
  · rw [remainingOf, remainingOf]
    congr 2
    ring

/-- Claim C10, witness: a session with `startTime = 5000` paused at
t = 10000 and resumed 777ms later has `startTime = 5777` and the same
remaining display value as before the pause. -/
theorem claim_C10_witness :
    (handleVisibilityChange (handleVisibilityChange
        { isObserving := true, hidden := false, hiddenTime := 0, startTime := 5000 }
        true 10000) false (10000 + 777)).startTime = 5000 + 777 ∧
    remainingOf (handleVisibilityChange (handleVisibilityChange
        { isObserving := true, hidden := false, hiddenTime := 0, startTime := 5000 }
        true 10000) false (10000 + 777)) 30000 (10000 + 777)
      = remainingOf { isObserving := true, hidden := false, hiddenTime := 0, startTime := 5000 }
          30000 10000 :=
  claim_C10 { isObserving := true, hidden := false, hiddenTime := 0, startTime := 5000 }
    10000 777 rfl (by norm_num)
